import Mathlib

/-!
Verification development for the adOptimizer repository.

The repository ships its frontend (Next.js/TypeScript) and documentation;
the backend analysis core (scoring engine, constraint validator, generation
orchestrator, embedding retrieval, query resilience layer) is referenced by
the README, QUICKSTART and the frontend callers but its Python sources are
not part of the checked-in tree.  Those components are therefore modelled
here from the specification, as marked on each definition; the frontend
suggestion-fetch logic is embedded from the shipped TypeScript source.

All scores use exact rationals so every definition is executable and every
concrete run can be checked by evaluation.
-/

/-! ## Data model (spec section 3) -/

/-- Modelled from the spec: an immutable aggregate of performance metrics
over a fixed window (spec section 3, MetricSnapshot).  Cost is in integer
micros. -/
structure MetricSnapshot where
  impressions : Nat
  clicks : Nat
  conversions : Nat
  costMicros : Nat
deriving Repr, DecidableEq

/-- Modelled from the spec: one creative together with its current metric
snapshot, as supplied to the scoring engine (spec section 4.2). -/
structure AdInput where
  id : Nat
  metrics : MetricSnapshot
deriving Repr, DecidableEq

/-- Modelled from the spec: the performance bucket enum (spec section 3). -/
inductive Bucket where
  | BEST
  | WORST
  | UNKNOWN
deriving Repr, DecidableEq

/-- Modelled from the spec: the scoring-relevant configuration options of
spec section 6. -/
structure ScoringConfig where
  minImpressionsForScoring : Nat
  minClicksForScoring : Nat
  bestWorstBandPercent : Rat
  minScorablePopulationForBucketing : Nat
deriving Repr, DecidableEq

/-- Modelled from the spec: the defaults listed in spec section 6
(100 impressions, 10 clicks, 0.20 band, population floor 5). -/
def defaultScoringConfig : ScoringConfig :=
  { minImpressionsForScoring := 100
    minClicksForScoring := 10
    bestWorstBandPercent := 1/5
    minScorablePopulationForBucketing := 5 }

/-- Modelled from the spec: an ad is scorable when it meets both the
minimum-impressions and minimum-clicks thresholds (spec section 4.2 step 1). -/
def isScorable (cfg : ScoringConfig) (a : AdInput) : Bool :=
  decide (cfg.minImpressionsForScoring ≤ a.metrics.impressions) &&
    decide (cfg.minClicksForScoring ≤ a.metrics.clicks)

/-- Modelled from the spec: derived click-through rate (clicks over
impressions), zero when there are no impressions. -/
def MetricSnapshot.ctr (m : MetricSnapshot) : Rat :=
  if m.impressions = 0 then 0 else (m.clicks : Rat) / (m.impressions : Rat)

/-- Modelled from the spec: derived conversion rate (conversions over
clicks), zero when there are no clicks. -/
def MetricSnapshot.cvr (m : MetricSnapshot) : Rat :=
  if m.clicks = 0 then 0 else (m.conversions : Rat) / (m.clicks : Rat)

/-- Modelled from the spec: derived cost per acquisition (cost over
conversions); only meaningful when conversions are positive, the scoring
engine never divides by a zero conversion count. -/
def MetricSnapshot.cpa (m : MetricSnapshot) : Rat :=
  if m.conversions = 0 then 0 else (m.costMicros : Rat) / (m.conversions : Rat)

/-! ## Normalization helpers for population-relative scores -/

/-- Minimum of a list of rationals (0 for the empty list; the scoring engine
only applies it to values drawn from a nonempty population). -/
def listMin : List Rat → Rat
  | [] => 0
  | x :: xs => xs.foldr min x

/-- Maximum of a list of rationals (0 for the empty list). -/
def listMax : List Rat → Rat
  | [] => 0
  | x :: xs => xs.foldr max x

/-- Modelled from the spec: min-max normalization of a value against the
population it was drawn from (spec section 4.2 step 2); a degenerate
population in which every value coincides normalizes to 1. -/
def minmaxNorm (vs : List Rat) (v : Rat) : Rat :=
  if listMax vs = listMin vs then 1 else (v - listMin vs) / (listMax vs - listMin vs)

/-- Modelled from the spec: inverted min-max normalization, used for cost
per acquisition where lower is better (spec section 4.2 step 2). -/
def invMinmaxNorm (vs : List Rat) (v : Rat) : Rat :=
  if listMax vs = listMin vs then 1 else (listMax vs - v) / (listMax vs - listMin vs)

/-! ## Sub-scores and composite score (spec section 4.2 step 2) -/

/-- Modelled from the spec: click-through-rate sub-score, normalized across
the current scorable population. -/
def ctrScore (pop : List AdInput) (a : AdInput) : Rat :=
  minmaxNorm (pop.map fun b => b.metrics.ctr) a.metrics.ctr

/-- Modelled from the spec: conversion-rate sub-score, normalized across the
current scorable population. -/
def cvrScore (pop : List AdInput) (a : AdInput) : Rat :=
  minmaxNorm (pop.map fun b => b.metrics.cvr) a.metrics.cvr

/-- Cost-per-acquisition values of the population members that actually have
conversions; ads without conversions contribute no value here. -/
def cpaPool (pop : List AdInput) : List Rat :=
  (pop.filter fun b => decide (0 < b.metrics.conversions)).map fun b => b.metrics.cpa

/-- Modelled from the spec: inverted cost-per-acquisition sub-score; a
creative with zero conversions is treated as worst percentile (score 0)
rather than causing a division by zero (spec section 4.2 step 2). -/
def cpaScore (pop : List AdInput) (a : AdInput) : Rat :=
  if a.metrics.conversions = 0 then 0
  else invMinmaxNorm (cpaPool pop) a.metrics.cpa

/-- Modelled from the spec: volume sub-score, the normalized impression rank
across the scorable population. -/
def volumeScore (pop : List AdInput) (a : AdInput) : Rat :=
  minmaxNorm (pop.map fun b => (b.metrics.impressions : Rat)) (a.metrics.impressions : Rat)

/-- Modelled from the spec: the composite score
0.25 ctr + 0.35 cvr + 0.25 cpa + 0.15 volume (spec section 4.2 step 2). -/
def compositeScore (pop : List AdInput) (a : AdInput) : Rat :=
  (0.25 : Rat) * ctrScore pop a + (0.35 : Rat) * cvrScore pop a +
    (0.25 : Rat) * cpaScore pop a + (0.15 : Rat) * volumeScore pop a

/-! ## Ranking and bucket assignment (spec section 4.2 step 3) -/

/-- Total order used for ranking: higher score first, ties broken by
ascending identifier for determinism. -/
def scoreDescIdAsc {α : Type} (score : α → Rat) (idOf : α → Nat) (a b : α) : Bool :=
  decide (score b < score a ∨ (score a = score b ∧ idOf a ≤ idOf b))

/-- Modelled from the spec: ranking order of the scoring engine, descending
by composite score with ties broken by creative identifier ascending. -/
def rankLe (pop : List AdInput) : AdInput → AdInput → Bool :=
  scoreDescIdAsc (compositeScore pop) (fun a => a.id)

/-- Modelled from the spec: size of the BEST and WORST bands.  Zero when the
scorable population is below the minimum population for bucketing, otherwise
the band percent of the population rounded down with a minimum of 1
(spec section 4.2 step 3 and edge cases). -/
def bandSize (cfg : ScoringConfig) (n : Nat) : Nat :=
  if n < cfg.minScorablePopulationForBucketing then 0
  else max 1 (cfg.bestWorstBandPercent * (n : Rat)).floor.toNat

/-- Modelled from the spec: the scorable partition of the input population
(spec section 4.2 step 1). -/
def scorablePop (cfg : ScoringConfig) (pop : List AdInput) : List AdInput :=
  pop.filter (isScorable cfg)

/-- Modelled from the spec: the below-threshold partition, forced UNKNOWN
with a null score (spec section 4.2 step 1). -/
def belowPop (cfg : ScoringConfig) (pop : List AdInput) : List AdInput :=
  pop.filter fun a => ! isScorable cfg a

/-- Modelled from the spec: the scorable population ranked descending by
composite score, ties by identifier ascending. -/
def rankedPop (cfg : ScoringConfig) (pop : List AdInput) : List AdInput :=
  (scorablePop cfg pop).mergeSort (rankLe (scorablePop cfg pop))

/-- Band size used by a classification run. -/
def classifyBand (cfg : ScoringConfig) (pop : List AdInput) : Nat :=
  bandSize cfg (scorablePop cfg pop).length

/-- The top-of-ranking segment assigned BEST. -/
def bestSel (cfg : ScoringConfig) (pop : List AdInput) : List AdInput :=
  (rankedPop cfg pop).take (classifyBand cfg pop)

/-- The ranked creatives left after removing the BEST band. -/
def restSel (cfg : ScoringConfig) (pop : List AdInput) : List AdInput :=
  (rankedPop cfg pop).drop (classifyBand cfg pop)

/-- Number of creatives assigned WORST (the band size, capped by what
remains after the BEST band). -/
def worstCount (cfg : ScoringConfig) (pop : List AdInput) : Nat :=
  min (classifyBand cfg pop) (restSel cfg pop).length

/-- The middle-of-ranking segment assigned UNKNOWN. -/
def unknownSel (cfg : ScoringConfig) (pop : List AdInput) : List AdInput :=
  (restSel cfg pop).take ((restSel cfg pop).length - worstCount cfg pop)

/-- The bottom-of-ranking segment assigned WORST. -/
def worstSel (cfg : ScoringConfig) (pop : List AdInput) : List AdInput :=
  (restSel cfg pop).drop ((restSel cfg pop).length - worstCount cfg pop)

/-- Modelled from the spec: the per-creative write-back record of a scoring
run, carrying bucket, score and explanation (spec section 4.2 step 4). -/
structure ScoredAd where
  ad : AdInput
  score : Option Rat
  bucket : Bucket
  explanation : String
deriving Repr, DecidableEq

/-- Modelled from the spec: the counts returned by a classification run
(spec section 4.2 step 4). -/
structure BucketCounts where
  best : Nat
  worst : Nat
  unknown : Nat
  belowThreshold : Nat
deriving Repr, DecidableEq

/-- Write-back record for a scorable creative. -/
def mkScored (cfg : ScoringConfig) (pop : List AdInput) (b : Bucket) (expl : String)
    (a : AdInput) : ScoredAd :=
  { ad := a
    score := some (compositeScore (scorablePop cfg pop) a)
    bucket := b
    explanation := expl }

/-- Modelled from the spec: classify_ads_by_performance (spec section 4.2,
README "Performance Analysis").  Partitions the population by the volume
thresholds, scores the scorable part relative to itself, ranks it descending
by composite score with ties broken by ascending identifier, assigns the top
band to BEST, the bottom band to WORST and the middle to UNKNOWN, forces the
below-threshold part to UNKNOWN with a null score, and returns all write-back
records together with the four bucket counts. -/
def classify (cfg : ScoringConfig) (pop : List AdInput) : List ScoredAd × BucketCounts :=
  ((bestSel cfg pop).map (mkScored cfg pop .BEST ("top performer by composite score")) ++
      (unknownSel cfg pop).map (mkScored cfg pop .UNKNOWN ("average performance")) ++
      (worstSel cfg pop).map (mkScored cfg pop .WORST ("bottom performer by composite score")) ++
      (belowPop cfg pop).map (fun a =>
        { ad := a, score := none, bucket := .UNKNOWN, explanation := "insufficient volume" }),
    { best := (bestSel cfg pop).length
      worst := (worstSel cfg pop).length
      unknown := (unknownSel cfg pop).length
      belowThreshold := (belowPop cfg pop).length })

/-! ## Concrete populations used as witnesses -/

/-- One creative below the volume thresholds: its scorable partition is
empty while the population is not. -/
def cxPopBelow : List AdInput :=
  [{ id := 1, metrics := { impressions := 0, clicks := 0, conversions := 0, costMicros := 0 } }]

/-- A single scorable creative used in one-creative populations. -/
def adOne : AdInput :=
  { id := 1, metrics := { impressions := 1000, clicks := 100, conversions := 5, costMicros := 1000000 } }

/-- One scorable creative: a non-empty scorable population of size 1. -/
def cxPopOne : List AdInput := [adOne]

/-- Four scorable creatives: below the default minimum population of 5. -/
def pop4 : List AdInput :=
  [{ id := 1, metrics := { impressions := 500, clicks := 40, conversions := 2, costMicros := 800000 } },
   { id := 2, metrics := { impressions := 600, clicks := 55, conversions := 0, costMicros := 900000 } },
   { id := 3, metrics := { impressions := 700, clicks := 31, conversions := 4, costMicros := 400000 } },
   { id := 4, metrics := { impressions := 800, clicks := 90, conversions := 9, costMicros := 700000 } }]

/-- Ten scorable creatives for the 2 BEST / 2 WORST / 6 UNKNOWN scenario. -/
def pop10 : List AdInput :=
  (List.range 10).map fun i =>
    { id := i + 1
      metrics := { impressions := 1000 + 100 * i
                   clicks := 50 + 7 * i
                   conversions := i
                   costMicros := 500000 + 100000 * i } }

/-! ## Constraint Validator (spec section 4.4, README "RSA Compliance") -/

/-- Modelled from the spec: a candidate variant, ordered headlines and
descriptions (spec section 4.4). -/
structure Variant where
  headlines : List String
  descriptions : List String
deriving Repr, DecidableEq

/-- Outcome of validating one headline or description: the kept (possibly
truncated) text, non-fatal warnings and hard errors. -/
structure ItemOutcome where
  kept : Option String
  warnings : List String
  errors : List String
deriving Repr, DecidableEq

/-- Modelled from the spec: truncation at a word boundary (spec section
4.4).  Text within the limit is unchanged.  Over-limit text is cut to the
limit; if the cut falls inside a word and an earlier word boundary exists,
the partial word and the boundary whitespace are dropped, while a single
unbroken word is hard-cut at the limit. -/
def wordBoundaryTruncate (maxLen : Nat) (cs : List Char) : List Char :=
  if cs.length ≤ maxLen then cs
  else
    let head := cs.take maxLen
    if head.contains ' ' then
      ((head.reverse.dropWhile fun c => decide (c ≠ ' ')).dropWhile fun c =>
        decide (c = ' ')).reverse
    else head

/-- Whitespace trim of a string (leading and trailing whitespace removed),
the normalization step of spec section 4.4. -/
def trimString (s : String) : String :=
  String.mk (((s.data.dropWhile Char.isWhitespace).reverse.dropWhile
    Char.isWhitespace).reverse)

/-- Modelled from the spec: per-item validation (spec section 4.4).  The
item is whitespace-trimmed; if it fits the length limit it is kept as is;
if it is over the limit it is truncated at a word boundary and kept with a
non-fatal warning when at least 3 characters remain, otherwise it is dropped
with a hard error. -/
def processItem (label : String) (maxLen : Nat) (s : String) : ItemOutcome :=
  let t := trimString s
  if t.length ≤ maxLen then { kept := some t, warnings := [], errors := [] }
  else
    let tr := String.mk (wordBoundaryTruncate maxLen t.data)
    if 3 ≤ tr.length then
      { kept := some tr
        warnings := [label ++ " over the length limit, truncated at a word boundary"]
        errors := [] }
    else
      { kept := none
        warnings := []
        errors := [label ++ " dropped: truncation left fewer than 3 characters"] }

/-- Worker for duplicate removal: drop every string already seen, keeping
first occurrences; comparison is case-sensitive. -/
def dedupSeen (seen : List String) : List String → List String
  | [] => []
  | x :: xs => if x ∈ seen then dedupSeen seen xs else x :: dedupSeen (x :: seen) xs

/-- Order-preserving removal of duplicates, keeping the first occurrence of
each string; comparison is case-sensitive. -/
def dedupKeepFirst (l : List String) : List String := dedupSeen [] l

/-- Result of validating one side (headlines or descriptions). -/
structure SideResult where
  items : List String
  countOk : Bool
  warnings : List String
  errors : List String
deriving Repr, DecidableEq

/-- Modelled from the spec: validation of one side of a variant (spec
section 4.4).  Each item is trimmed and truncated or dropped, duplicates
are removed case-sensitively keeping first occurrences, and itemized errors
are recorded when the remaining count falls outside the allowed range.
`countOk` holds exactly when the remaining count reaches the minimum. -/
def validateSide (label : String) (maxLen minCount maxCount : Nat)
    (input : List String) : SideResult :=
  let outcomes := input.map (processItem label maxLen)
  let finalItems := dedupKeepFirst (outcomes.filterMap fun o => o.kept)
  let countErrors :=
    (if finalItems.length < minCount then
      [label ++ " count below minimum after truncation and dedup"]
    else []) ++
    (if maxCount < finalItems.length then [label ++ " count above maximum"] else [])
  { items := finalItems
    countOk := decide (minCount ≤ finalItems.length)
    warnings := (outcomes.map fun o => o.warnings).flatten
    errors := (outcomes.map fun o => o.errors).flatten ++ countErrors }

/-- Modelled from the spec: the validator's return value — the normalized
variant, the passed flag, the itemized hard errors and the non-fatal
warnings (spec section 4.4 lists the first three; warnings are kept apart
from errors because the spec records truncation as a warning rather than an
error). -/
structure ValidationResult where
  normalized : Variant
  passed : Bool
  errors : List String
  warnings : List String
deriving Repr, DecidableEq

/-- Modelled from the spec: the RSA constraint validator (spec section 4.4).
Headlines: count in [3,15], each at most 30 characters; descriptions: count
in [2,4], each at most 90 characters; shared truncation and uniqueness
policy; passed is true exactly when both remaining counts are at or above
their minimums after truncation and dedup. -/
def validate (v : Variant) : ValidationResult :=
  let h := validateSide ("headline") 30 3 15 v.headlines
  let d := validateSide ("description") 90 2 4 v.descriptions
  { normalized := { headlines := h.items, descriptions := d.items }
    passed := h.countOk && d.countOk
    errors := h.errors ++ d.errors
    warnings := h.warnings ++ d.warnings }

/-- A 40-character single-word headline, the example of spec section 8. -/
def strA40 : String := String.mk (List.replicate 40 'A')

/-- The 30-character hard cut of `strA40`. -/
def strA30 : String := String.mk (List.replicate 30 'A')

/-- The variant of the spec section 8 validator example. -/
def exampleVariant : Variant := { headlines := [strA40], descriptions := ["ok"] }

/-- A variant satisfying every constraint. -/
def goodVariant : Variant :=
  { headlines := ["Buy now", "Save big", "Act fast"]
    descriptions := ["Great deals today", "Shop our store"] }

/-! ## Generation Orchestrator (spec section 4.5) -/

/-- Modelled from the spec: an exemplar handed to generation — a BEST-bucket
creative identifier with its retrieval similarity score (spec section 4.5). -/
structure Exemplar where
  id : Nat
  similarity : Rat
deriving Repr, DecidableEq

/-- Modelled from the spec: a persisted Suggestion record with exemplar
provenance (spec section 3; mirrored by the Suggestion type of the ad detail
page in src/unnamed/part_002). -/
structure Suggestion where
  headlines : List String
  descriptions : List String
  exemplarIds : List Nat
  similarityScores : List Rat
  validationPassed : Bool
  validationErrors : List String
deriving Repr, DecidableEq

/-- Modelled from the spec: the generation error taxonomy relevant to a
single generation call (spec section 7). -/
inductive GenError where
  | noExemplarsAvailable
  | generationParseError
deriving Repr, DecidableEq

/-- Modelled from the spec: parsing the generative service response into
the expected number of raw variants; an unparseable response or a count
mismatch is a parse failure (spec section 4.5 step 3). -/
def parseVariants (numVariants : Nat) (response : Option (List Variant)) :
    Option (List Variant) :=
  match response with
  | none => none
  | some vs => if vs.length = numVariants then some vs else none

/-- Modelled from the spec: build the Suggestion persisted for one raw
variant — validator output plus exemplar provenance copied from retrieval
(spec section 4.5 steps 4 and 5). -/
def mkSuggestion (exemplars : List Exemplar) (v : Variant) : Suggestion :=
  let r := validate v
  { headlines := r.normalized.headlines
    descriptions := r.normalized.descriptions
    exemplarIds := exemplars.map fun e => e.id
    similarityScores := exemplars.map fun e => e.similarity
    validationPassed := r.passed
    validationErrors := r.errors }

/-- Modelled from the spec: the generation orchestrator (spec section 4.5).
Requires at least one exemplar, parses the single service response into the
expected variant count, validates every raw variant and produces one
Suggestion per raw variant, failed ones included. -/
def generate (exemplars : List Exemplar) (numVariants : Nat)
    (response : Option (List Variant)) : Except GenError (List Suggestion) :=
  if exemplars.isEmpty then .error .noExemplarsAvailable
  else
    match parseVariants numVariants response with
    | none => .error .generationParseError
    | some vs => .ok (vs.map (mkSuggestion exemplars))

/-- Modelled from the spec: a generation run against a suggestion store —
on success all produced Suggestions are appended, on a typed error the
store is left unchanged (spec sections 4.5 and 7). -/
def generateAndPersist (db : List Suggestion) (exemplars : List Exemplar)
    (numVariants : Nat) (response : Option (List Variant)) :
    List Suggestion × Option GenError :=
  match generate exemplars numVariants response with
  | .error e => (db, some e)
  | .ok sugs => (db ++ sugs, none)

/-- Substring test: whether `pat` occurs contiguously in `s` (the
`String.prototype.includes` of the frontend source). -/
def stringIncludes (s pat : String) : Bool :=
  s.data.tails.any fun t => pat.data.isPrefixOf t

/-- Toast text of the ad detail page for the no-exemplars failure, from
src/unnamed/part_002 lines 161-163 (the quotation marks around Score Ads in
the original text are elided). -/
def runScoringFirstMessage : String :=
  "Please run scoring first to classify ads. Go to Accounts page and click Score Ads."

/-- Embedded from src/unnamed/part_002 lines 156-166: the generate
mutation's onError handler surfaces a no-exemplars backend failure as the
run-scoring-first toast and passes any other message through. -/
def generationErrorDescription (errorMessage : String) : String :=
  if stringIncludes errorMessage ("No high-performing ads") then runScoringFirstMessage
  else errorMessage

/-- A concrete exemplar used in witness runs. -/
def exemplarSeven : Exemplar := { id := 7, similarity := 9/10 }

/-! ## Query Resilience Layer (spec section 4.1, README "Field Fallback Logic") -/

/-- Modelled from the spec: a reporting-API response — either data or an
error identifying the invalid or unsupported fields (spec section 4.1). -/
inductive ApiResponse (α : Type) where
  | ok (data : α)
  | fieldError (badFields : List String)
deriving Repr, DecidableEq

/-- Modelled from the spec: the terminal error of the query resilience
layer, carrying the last-attempted field list and the final error
(spec section 4.1). -/
structure QueryDegradationExhausted where
  attemptedFields : List String
  finalBadFields : List String
deriving Repr, DecidableEq

/-- Modelled from the spec: remove exactly the fields named by an error
(spec section 4.1). -/
def removeFields (fields bad : List String) : List String :=
  fields.filter fun f => decide (f ∉ bad)

/-- Modelled from the spec: the fixed retry ceiling, default 3 (spec
sections 4.1 and 6, max_field_removal_retries). -/
def defaultMaxFieldRemovalRetries : Nat := 3

/-- Modelled from the spec: execute_with_fallback (spec section 4.1, README
lines 229-235).  Try the query; on a field error remove exactly the named
fields and retry while retries remain; once the ceiling is exhausted fail
with the terminal error. -/
def executeWithFallback {α : Type} (api : List String → ApiResponse α) :
    Nat → List String → Except QueryDegradationExhausted (α × List String)
  | 0, fields =>
    match api fields with
    | .ok d => .ok (d, fields)
    | .fieldError bad => .error { attemptedFields := fields, finalBadFields := bad }
  | r + 1, fields =>
    match api fields with
    | .ok d => .ok (d, fields)
    | .fieldError bad => executeWithFallback api r (removeFields fields bad)

/-- Chain of field-removal steps: `DegradeChain api k fields final` holds
when `final` is reached from `fields` by exactly `k` retries, each removing
exactly the fields named by the error of the attempt before it. -/
inductive DegradeChain {α : Type} (api : List String → ApiResponse α) :
    Nat → List String → List String → Prop where
  | refl (fields : List String) : DegradeChain api 0 fields fields
  | step {fields final bad : List String} {k : Nat} :
      api fields = .fieldError bad →
      DegradeChain api k (removeFields fields bad) final →
      DegradeChain api (k + 1) fields final

/-- A reporting API that rejects the ctr field once and then succeeds,
returning the number of selected fields. -/
def apiDropCtr : List String → ApiResponse Nat := fun fields =>
  if ("ctr") ∈ fields then .fieldError ["ctr"] else .ok fields.length

/-- A reporting API that always fails with the same unsupported field. -/
def apiAlwaysFails : List String → ApiResponse Nat := fun _ =>
  .fieldError ["unsupported"]

/-! ## Embedding Retrieval (spec section 4.3) -/

/-- Modelled from the spec: an ad creative text payload (spec section 3). -/
structure Creative where
  id : Nat
  headlines : List String
  descriptions : List String
deriving Repr, DecidableEq

/-- Modelled from the spec: the concatenated headline and description text
embedded for a creative (spec section 4.3). -/
def creativeText (c : Creative) : String :=
  String.intercalate (" ") (c.headlines ++ c.descriptions)

/-- Modelled from the spec: one embedding-cache entry, keyed by creative id
and text (the text stands for its hash, idealized as injective; a change in
text changes the key and so invalidates the cached vector — spec section
4.3). -/
structure EmbeddingCacheEntry where
  creativeId : Nat
  textKey : String
  vector : List Rat
deriving Repr, DecidableEq

/-- Cache lookup by creative id and text key. -/
def cacheLookup (cache : List EmbeddingCacheEntry) (cid : Nat) (text : String) :
    Option (List Rat) :=
  match cache.find? fun e => decide (e.creativeId = cid ∧ e.textKey = text) with
  | some e => some e.vector
  | none => none

/-- Modelled from the spec: fetch an embedding through the cache — a hit
returns the cached vector unchanged, a miss computes the embedding and
stores it under (creative id, text key) (spec section 4.3). -/
def getEmbedding (embed : String → List Rat) (cache : List EmbeddingCacheEntry)
    (cid : Nat) (text : String) : List Rat × List EmbeddingCacheEntry :=
  match cacheLookup cache cid text with
  | some v => (v, cache)
  | none => (embed text, { creativeId := cid, textKey := text, vector := embed text } :: cache)

/-- Dot product of two vectors (extra coordinates of the longer vector are
ignored). -/
def dotProduct : List Rat → List Rat → Rat
  | x :: xs, y :: ys => x * y + dotProduct xs ys
  | _, _ => 0

/-- Modelled from the spec: cosine similarity between embedding vectors
(spec section 4.3).  The external embedding service returns unit-normalized
vectors, so cosine similarity is their dot product. -/
def cosineSimilarity (u v : List Rat) : Rat := dotProduct u v

/-- One retrieval result: a pool creative identifier with its similarity
score to the target. -/
structure SimilarityHit where
  creativeId : Nat
  score : Rat
deriving Repr, DecidableEq

/-- Modelled from the spec: retrieval order — descending by similarity
score, ties broken by creative identifier ascending (spec section 4.3). -/
def simOrder : SimilarityHit → SimilarityHit → Bool :=
  scoreDescIdAsc (fun h => h.score) (fun h => h.creativeId)

/-- One step of scoring the pool: embed the next pool creative through the
cache and append its similarity hit. -/
def findSimilarStep (embed : String → List Rat) (tv : List Rat)
    (acc : List SimilarityHit × List EmbeddingCacheEntry) (p : Creative) :
    List SimilarityHit × List EmbeddingCacheEntry :=
  let r := getEmbedding embed acc.2 p.id (creativeText p)
  (acc.1 ++ [{ creativeId := p.id, score := cosineSimilarity tv r.1 }], r.2)

/-- Modelled from the spec: find_similar (spec section 4.3).  Embeds the
target and every pool creative through the cache, scores each pool creative
by cosine similarity to the target, and returns the top-k descending by
similarity with ties broken by ascending identifier, together with the
updated cache. -/
def findSimilar (embed : String → List Rat) (cache : List EmbeddingCacheEntry)
    (target : Creative) (pool : List Creative) (k : Nat) :
    List SimilarityHit × List EmbeddingCacheEntry :=
  let t := getEmbedding embed cache target.id (creativeText target)
  let scored := pool.foldl (findSimilarStep embed t.1) ([], t.2)
  ((scored.1.mergeSort simOrder).take k, scored.2)

/-- The cache-independent similarity scores of a pool against a target. -/
def poolSimilarityScores (embed : String → List Rat) (target : Creative)
    (pool : List Creative) : List SimilarityHit :=
  pool.map fun p =>
    { creativeId := p.id
      score := cosineSimilarity (embed (creativeText target)) (embed (creativeText p)) }

/-- A cache is consistent with the embedding function when every cached
vector is the embedding of its text key; the spec's staleness rule keeps
real caches in this state, since a text change changes the key. -/
def CacheConsistent (embed : String → List Rat) (cache : List EmbeddingCacheEntry) : Prop :=
  ∀ e ∈ cache, e.vector = embed e.textKey

/-- A deterministic stand-in embedding function used for concrete runs. -/
def embedByLength : String → List Rat := fun s => [(s.length : Rat)]

/-- A concrete retrieval target used in witness runs. -/
def creativeTargetW : Creative := { id := 1, headlines := ["ad"], descriptions := [] }

/-- A concrete retrieval pool member used in witness runs. -/
def creativePoolW : Creative := { id := 2, headlines := ["xx"], descriptions := [] }

/-! ## Ad detail page suggestions fetch (src/unnamed/part_002) -/

/-- Shape of a fetch response as seen by the suggestions query: the ok
flag, the status code, and the JSON body a successful response parses to. -/
structure HttpResponse where
  ok : Bool
  status : Nat
  json : List Suggestion
deriving Repr, DecidableEq

/-- Embedded from src/unnamed/part_002 lines 118-125: the suggestions
queryFn returns the parsed body on an ok response, the empty list when the
status is exactly 404, and fails with the fetch error otherwise. -/
def fetchSuggestionsQueryFn (res : HttpResponse) : Except String (List Suggestion) :=
  if !res.ok then
    if res.status = 404 then .ok [] else .error ("Failed to fetch suggestions")
  else .ok res.json

/-- The three render states of the suggestions panel. -/
inductive SuggestionsPanel where
  | loadingView
  | emptyView
  | listView (count : Nat)
deriving Repr, DecidableEq

/-- Embedded from src/unnamed/part_002 lines 402-417: the panel shows the
loading state while the query is in flight, the empty "No Suggestions Yet"
state when the data is absent or an empty list, and the variant list
otherwise. -/
def renderSuggestionsPanel (isLoading : Bool)
    (suggestions : Option (List Suggestion)) : SuggestionsPanel :=
  if isLoading then .loadingView
  else
    match suggestions with
    | none => .emptyView
    | some [] => .emptyView
    | some l => .listView l.length

/-! ## Helper lemmas -/

theorem length_filter_add_length_filter_not {α : Type} (p : α → Bool) (l : List α) :
    (l.filter p).length + (l.filter fun a => ! p a).length = l.length := by
  induction l with
  | nil => rfl
  | cons x xs ih =>
    cases h : p x <;> simp [List.filter_cons, h] <;> omega

theorem foldr_min_le_init (x : Rat) (l : List Rat) : l.foldr min x ≤ x := by
  induction l with
  | nil => exact le_refl x
  | cons y ys ih => exact le_trans (min_le_right _ _) ih

theorem foldr_min_le_of_mem {v : Rat} {l : List Rat} (x : Rat) (h : v ∈ l) :
    l.foldr min x ≤ v := by
  induction l with
  | nil => cases h
  | cons y ys ih =>
    rcases List.mem_cons.mp h with rfl | hv
    · exact min_le_left _ _
    · exact le_trans (min_le_right _ _) (ih hv)

theorem le_foldr_max_init (x : Rat) (l : List Rat) : x ≤ l.foldr max x := by
  induction l with
  | nil => exact le_refl x
  | cons y ys ih => exact le_trans ih (le_max_right _ _)

theorem le_foldr_max_of_mem {v : Rat} {l : List Rat} (x : Rat) (h : v ∈ l) :
    v ≤ l.foldr max x := by
  induction l with
  | nil => cases h
  | cons y ys ih =>
    rcases List.mem_cons.mp h with rfl | hv
    · exact le_max_left _ _
    · exact le_trans (ih hv) (le_max_right _ _)

theorem listMin_le_of_mem {v : Rat} {l : List Rat} (h : v ∈ l) : listMin l ≤ v := by
  cases l with
  | nil => cases h
  | cons x xs =>
    rcases List.mem_cons.mp h with rfl | hv
    · exact foldr_min_le_init v xs
    · exact foldr_min_le_of_mem x hv

theorem le_listMax_of_mem {v : Rat} {l : List Rat} (h : v ∈ l) : v ≤ listMax l := by
  cases l with
  | nil => cases h
  | cons x xs =>
    rcases List.mem_cons.mp h with rfl | hv
    · exact le_foldr_max_init v xs
    · exact le_foldr_max_of_mem x hv

theorem minmaxNorm_bounds_of_mem {vs : List Rat} {v : Rat} (h : v ∈ vs) :
    0 ≤ minmaxNorm vs v ∧ minmaxNorm vs v ≤ 1 := by
  unfold minmaxNorm
  split
  · constructor <;> norm_num
  · rename_i hne
    have hlo := listMin_le_of_mem h
    have hhi := le_listMax_of_mem h
    have hlt : listMin vs < listMax vs :=
      lt_of_le_of_ne (le_trans hlo hhi) (Ne.symm hne)
    constructor
    · exact div_nonneg (by linarith) (by linarith)
    · rw [div_le_one (by linarith)]
      linarith

theorem invMinmaxNorm_bounds_of_mem {vs : List Rat} {v : Rat} (h : v ∈ vs) :
    0 ≤ invMinmaxNorm vs v ∧ invMinmaxNorm vs v ≤ 1 := by
  unfold invMinmaxNorm
  split
  · constructor <;> norm_num
  · rename_i hne
    have hlo := listMin_le_of_mem h
    have hhi := le_listMax_of_mem h
    have hlt : listMin vs < listMax vs :=
      lt_of_le_of_ne (le_trans hlo hhi) (Ne.symm hne)
    constructor
    · exact div_nonneg (by linarith) (by linarith)
    · rw [div_le_one (by linarith)]
      linarith

theorem ctrScore_bounds {pop : List AdInput} {a : AdInput} (ha : a ∈ pop) :
    0 ≤ ctrScore pop a ∧ ctrScore pop a ≤ 1 :=
  minmaxNorm_bounds_of_mem (List.mem_map_of_mem _ ha)

theorem cvrScore_bounds {pop : List AdInput} {a : AdInput} (ha : a ∈ pop) :
    0 ≤ cvrScore pop a ∧ cvrScore pop a ≤ 1 :=
  minmaxNorm_bounds_of_mem (List.mem_map_of_mem _ ha)

theorem volumeScore_bounds {pop : List AdInput} {a : AdInput} (ha : a ∈ pop) :
    0 ≤ volumeScore pop a ∧ volumeScore pop a ≤ 1 :=
  minmaxNorm_bounds_of_mem (List.mem_map_of_mem _ ha)

theorem cpaScore_bounds {pop : List AdInput} {a : AdInput} (ha : a ∈ pop) :
    0 ≤ cpaScore pop a ∧ cpaScore pop a ≤ 1 := by
  unfold cpaScore
  split
  · constructor <;> norm_num
  · rename_i hconv
    apply invMinmaxNorm_bounds_of_mem
    unfold cpaPool
    exact List.mem_map_of_mem _
      (List.mem_filter.mpr ⟨ha, by simpa using Nat.pos_of_ne_zero hconv⟩)

theorem cpaScore_zero_conversions {pop : List AdInput} {a : AdInput}
    (h : a.metrics.conversions = 0) : cpaScore pop a = 0 := by
  simp [cpaScore, h]

theorem compositeScore_bounds {pop : List AdInput} {a : AdInput} (ha : a ∈ pop) :
    0 ≤ compositeScore pop a ∧ compositeScore pop a ≤ 1 := by
  obtain ⟨h1, h2⟩ := ctrScore_bounds ha
  obtain ⟨h3, h4⟩ := cvrScore_bounds ha
  obtain ⟨h5, h6⟩ := cpaScore_bounds ha
  obtain ⟨h7, h8⟩ := volumeScore_bounds ha
  unfold compositeScore
  constructor <;> nlinarith

theorem rankLe_trans (pop : List AdInput) : ∀ a b c : AdInput,
    rankLe pop a b = true → rankLe pop b c = true → rankLe pop a c = true := by
  intro a b c hab hbc
  simp only [rankLe, scoreDescIdAsc, decide_eq_true_eq] at *
  rcases hab with h1 | ⟨e1, i1⟩ <;> rcases hbc with h2 | ⟨e2, i2⟩
  · exact Or.inl (lt_trans h2 h1)
  · exact Or.inl (by rw [← e2]; exact h1)
  · exact Or.inl (by rw [e1]; exact h2)
  · exact Or.inr ⟨e1.trans e2, le_trans i1 i2⟩

theorem rankLe_total (pop : List AdInput) : ∀ a b : AdInput,
    (rankLe pop a b || rankLe pop b a) = true := by
  intro a b
  simp only [rankLe, scoreDescIdAsc, Bool.or_eq_true, decide_eq_true_eq]
  rcases lt_trichotomy (compositeScore pop a) (compositeScore pop b) with h | h | h
  · exact Or.inr (Or.inl h)
  · rcases Nat.le_total a.id b.id with hi | hi
    · exact Or.inl (Or.inr ⟨h, hi⟩)
    · exact Or.inr (Or.inr ⟨h.symm, hi⟩)
  · exact Or.inl (Or.inl h)

theorem rankedPop_length (cfg : ScoringConfig) (pop : List AdInput) :
    (rankedPop cfg pop).length = (scorablePop cfg pop).length :=
  List.length_mergeSort _

theorem rankedPop_sorted (cfg : ScoringConfig) (pop : List AdInput) :
    (rankedPop cfg pop).Pairwise
      (fun a b => rankLe (scorablePop cfg pop) a b = true) :=
  List.sorted_mergeSort (rankLe_trans (scorablePop cfg pop))
    (rankLe_total (scorablePop cfg pop)) (scorablePop cfg pop)

theorem mem_rankedPop {cfg : ScoringConfig} {pop : List AdInput} {a : AdInput}
    (h : a ∈ rankedPop cfg pop) : a ∈ scorablePop cfg pop :=
  (List.mergeSort_perm _ _).mem_iff.mp h

theorem pairwise_take_drop {α : Type} {R : α → α → Prop} {l : List α}
    (h : l.Pairwise R) (n : Nat) :
    ∀ a ∈ l.take n, ∀ b ∈ l.drop n, R a b := by
  have hsplit : l.take n ++ l.drop n = l := List.take_append_drop n l
  rw [← hsplit] at h
  exact (List.pairwise_append.mp h).2.2

theorem scorablePop_isScorable {cfg : ScoringConfig} {pop : List AdInput} {a : AdInput}
    (h : a ∈ scorablePop cfg pop) : isScorable cfg a = true :=
  (List.mem_filter.mp h).2

theorem belowPop_not_scorable {cfg : ScoringConfig} {pop : List AdInput} {a : AdInput}
    (h : a ∈ belowPop cfg pop) : isScorable cfg a = false := by
  have := (List.mem_filter.mp h).2
  simpa using this

theorem bestSel_mem_scorable {cfg : ScoringConfig} {pop : List AdInput} {a : AdInput}
    (h : a ∈ bestSel cfg pop) : a ∈ scorablePop cfg pop :=
  mem_rankedPop (List.mem_of_mem_take h)

theorem unknownSel_mem_scorable {cfg : ScoringConfig} {pop : List AdInput} {a : AdInput}
    (h : a ∈ unknownSel cfg pop) : a ∈ scorablePop cfg pop :=
  mem_rankedPop (List.mem_of_mem_drop (List.mem_of_mem_take h))

theorem worstSel_mem_scorable {cfg : ScoringConfig} {pop : List AdInput} {a : AdInput}
    (h : a ∈ worstSel cfg pop) : a ∈ scorablePop cfg pop :=
  mem_rankedPop (List.mem_of_mem_drop (List.mem_of_mem_drop h))

theorem classify_mem_spec (cfg : ScoringConfig) (pop : List AdInput) (s : ScoredAd)
    (hs : s ∈ (classify cfg pop).1) :
    (s.ad ∈ bestSel cfg pop ∧
        s = mkScored cfg pop .BEST ("top performer by composite score") s.ad) ∨
    (s.ad ∈ unknownSel cfg pop ∧
        s = mkScored cfg pop .UNKNOWN ("average performance") s.ad) ∨
    (s.ad ∈ worstSel cfg pop ∧
        s = mkScored cfg pop .WORST ("bottom performer by composite score") s.ad) ∨
    (s.ad ∈ belowPop cfg pop ∧ s.score = none ∧ s.bucket = .UNKNOWN ∧
        s.explanation = "insufficient volume") := by
  simp only [classify, List.mem_append, List.mem_map] at hs
  rcases hs with ((⟨a, ha, rfl⟩ | ⟨a, ha, rfl⟩) | ⟨a, ha, rfl⟩) | ⟨a, ha, rfl⟩
  · exact Or.inl ⟨ha, rfl⟩
  · exact Or.inr (Or.inl ⟨ha, rfl⟩)
  · exact Or.inr (Or.inr (Or.inl ⟨ha, rfl⟩))
  · exact Or.inr (Or.inr (Or.inr ⟨ha, rfl, rfl, rfl⟩))

/-! ## Claim C1: bucket counts partition the population -/

/-- Claim C1 counterexample: for a non-empty population whose scorable
partition is empty, classify does not return zero counts for all four
buckets — the below-threshold count equals the population size.  Shown at a
concrete one-creative population with zero impressions. -/
theorem claim_C1_counterexample :
    scorablePop defaultScoringConfig cxPopBelow = [] ∧
    cxPopBelow ≠ [] ∧
    ¬ ((classify defaultScoringConfig cxPopBelow).2.best = 0 ∧
        (classify defaultScoringConfig cxPopBelow).2.worst = 0 ∧
        (classify defaultScoringConfig cxPopBelow).2.unknown = 0 ∧
        (classify defaultScoringConfig cxPopBelow).2.belowThreshold = 0) := by
  have hscor : scorablePop defaultScoringConfig cxPopBelow = [] := by decide
  have hbelow : (belowPop defaultScoringConfig cxPopBelow).length = 1 := by decide
  refine ⟨hscor, by decide, ?_⟩
  intro h
  have : (classify defaultScoringConfig cxPopBelow).2.belowThreshold = 1 := by
    simp [classify, hbelow]
  omega

/-- Claim C1 (amended): for every configuration and population the four
returned counts sum to the population length, and when the scorable
partition is empty classify returns zero BEST and WORST counts, every
creative landing in UNKNOWN with a null score, without raising an error. -/
theorem claim_C1_counts_partition (cfg : ScoringConfig) (pop : List AdInput) :
    ((classify cfg pop).2.best + (classify cfg pop).2.worst +
        (classify cfg pop).2.unknown + (classify cfg pop).2.belowThreshold = pop.length) ∧
    (scorablePop cfg pop = [] →
      (classify cfg pop).2.best = 0 ∧ (classify cfg pop).2.worst = 0 ∧
      ∀ s ∈ (classify cfg pop).1, s.bucket = .UNKNOWN ∧ s.score = none) := by
  constructor
  · have hpart := length_filter_add_length_filter_not (isScorable cfg) pop
    have hlen := rankedPop_length cfg pop
    simp only [classify, bestSel, worstSel, unknownSel, worstCount, restSel,
      List.length_take, List.length_drop, hlen]
    simp only [scorablePop, belowPop] at *
    omega
  · intro hempty
    have hranked : rankedPop cfg pop = [] := by
      simp [rankedPop, hempty]
    have hbest : bestSel cfg pop = [] := by
      simp [bestSel, hranked]
    have hrest : restSel cfg pop = [] := by
      simp [restSel, hranked]
    have hworst : worstSel cfg pop = [] := by
      simp [worstSel, hrest]
    have hunknown : unknownSel cfg pop = [] := by
      simp [unknownSel, hrest]
    refine ⟨by simp [classify, hbest], by simp [classify, hworst], ?_⟩
    intro s hs
    rcases classify_mem_spec cfg pop s hs with ⟨hm, _⟩ | ⟨hm, _⟩ | ⟨hm, _⟩ | ⟨_, h1, h2, _⟩
    · rw [hbest] at hm; cases hm
    · rw [hunknown] at hm; cases hm
    · rw [hworst] at hm; cases hm
    · exact ⟨h2, h1⟩

/-- Claim C1 witness: the amended theorem evaluated at the concrete
one-creative below-threshold population. -/
theorem claim_C1_counts_partition_witness :
    ((classify defaultScoringConfig cxPopBelow).2.best +
        (classify defaultScoringConfig cxPopBelow).2.worst +
        (classify defaultScoringConfig cxPopBelow).2.unknown +
        (classify defaultScoringConfig cxPopBelow).2.belowThreshold = cxPopBelow.length) ∧
    (classify defaultScoringConfig cxPopBelow).2.best = 0 ∧
    (classify defaultScoringConfig cxPopBelow).2.worst = 0 := by
  have h := claim_C1_counts_partition defaultScoringConfig cxPopBelow
  have hempty : scorablePop defaultScoringConfig cxPopBelow = [] := by decide
  exact ⟨h.1, (h.2 hempty).1, (h.2 hempty).2.1⟩

/-! ## Claim C2: composite score formula and bounds -/

/-- Claim C2: every scorable creative receives the composite score
0.25 ctr + 0.35 cvr + 0.25 cpa + 0.15 volume with every sub-score and the
composite in [0,1]; a scorable creative with zero conversions receives the
worst (minimal) cpa sub-score rather than a division by zero; every
below-threshold creative receives a null score. -/
theorem claim_C2_composite_score (cfg : ScoringConfig) (pop : List AdInput) (s : ScoredAd)
    (hs : s ∈ (classify cfg pop).1) :
    (isScorable cfg s.ad = true →
      s.score = some (compositeScore (scorablePop cfg pop) s.ad) ∧
      compositeScore (scorablePop cfg pop) s.ad =
        (0.25 : Rat) * ctrScore (scorablePop cfg pop) s.ad +
          (0.35 : Rat) * cvrScore (scorablePop cfg pop) s.ad +
          (0.25 : Rat) * cpaScore (scorablePop cfg pop) s.ad +
          (0.15 : Rat) * volumeScore (scorablePop cfg pop) s.ad ∧
      (0 ≤ ctrScore (scorablePop cfg pop) s.ad ∧ ctrScore (scorablePop cfg pop) s.ad ≤ 1) ∧
      (0 ≤ cvrScore (scorablePop cfg pop) s.ad ∧ cvrScore (scorablePop cfg pop) s.ad ≤ 1) ∧
      (0 ≤ cpaScore (scorablePop cfg pop) s.ad ∧ cpaScore (scorablePop cfg pop) s.ad ≤ 1) ∧
      (0 ≤ volumeScore (scorablePop cfg pop) s.ad ∧ volumeScore (scorablePop cfg pop) s.ad ≤ 1) ∧
      (0 ≤ compositeScore (scorablePop cfg pop) s.ad ∧
          compositeScore (scorablePop cfg pop) s.ad ≤ 1) ∧
      (s.ad.metrics.conversions = 0 →
        cpaScore (scorablePop cfg pop) s.ad = 0 ∧
        ∀ b ∈ scorablePop cfg pop,
          cpaScore (scorablePop cfg pop) s.ad ≤ cpaScore (scorablePop cfg pop) b)) ∧
    (isScorable cfg s.ad = false → s.score = none) := by
  rcases classify_mem_spec cfg pop s hs with
    ⟨hm, hseq⟩ | ⟨hm, hseq⟩ | ⟨hm, hseq⟩ | ⟨hm, h1, _, _⟩
  · have hmem : s.ad ∈ scorablePop cfg pop := bestSel_mem_scorable hm
    refine ⟨fun _ => ?_, fun hf => ?_⟩
    · refine ⟨?_, rfl, ctrScore_bounds hmem, cvrScore_bounds hmem, cpaScore_bounds hmem,
        volumeScore_bounds hmem, compositeScore_bounds hmem, fun hconv => ?_⟩
      · conv_lhs => rw [hseq]
        rfl
      · refine ⟨cpaScore_zero_conversions hconv, fun b hb => ?_⟩
        rw [cpaScore_zero_conversions hconv]
        exact (cpaScore_bounds hb).1
    · rw [scorablePop_isScorable hmem] at hf; cases hf
  · have hmem : s.ad ∈ scorablePop cfg pop := unknownSel_mem_scorable hm
    refine ⟨fun _ => ?_, fun hf => ?_⟩
    · refine ⟨?_, rfl, ctrScore_bounds hmem, cvrScore_bounds hmem, cpaScore_bounds hmem,
        volumeScore_bounds hmem, compositeScore_bounds hmem, fun hconv => ?_⟩
      · conv_lhs => rw [hseq]
        rfl
      · refine ⟨cpaScore_zero_conversions hconv, fun b hb => ?_⟩
        rw [cpaScore_zero_conversions hconv]
        exact (cpaScore_bounds hb).1
    · rw [scorablePop_isScorable hmem] at hf; cases hf
  · have hmem : s.ad ∈ scorablePop cfg pop := worstSel_mem_scorable hm
    refine ⟨fun _ => ?_, fun hf => ?_⟩
    · refine ⟨?_, rfl, ctrScore_bounds hmem, cvrScore_bounds hmem, cpaScore_bounds hmem,
        volumeScore_bounds hmem, compositeScore_bounds hmem, fun hconv => ?_⟩
      · conv_lhs => rw [hseq]
        rfl
      · refine ⟨cpaScore_zero_conversions hconv, fun b hb => ?_⟩
        rw [cpaScore_zero_conversions hconv]
        exact (cpaScore_bounds hb).1
    · rw [scorablePop_isScorable hmem] at hf; cases hf
  · refine ⟨fun ht => ?_, fun _ => h1⟩
    rw [belowPop_not_scorable hm] at ht; cases ht

/-- Claim C2 witness: a concrete scorable creative whose write-back record
carries the composite score, with the composite inside [0,1]. -/
theorem claim_C2_composite_score_witness :
    isScorable defaultScoringConfig adOne = true ∧
    (mkScored defaultScoringConfig cxPopOne .UNKNOWN ("average performance") adOne).score =
      some (compositeScore (scorablePop defaultScoringConfig cxPopOne)
        (mkScored defaultScoringConfig cxPopOne .UNKNOWN ("average performance") adOne).ad) ∧
    0 ≤ compositeScore (scorablePop defaultScoringConfig cxPopOne)
        (mkScored defaultScoringConfig cxPopOne .UNKNOWN ("average performance") adOne).ad ∧
    compositeScore (scorablePop defaultScoringConfig cxPopOne)
        (mkScored defaultScoringConfig cxPopOne .UNKNOWN ("average performance") adOne).ad ≤ 1 := by
  have hscor : scorablePop defaultScoringConfig cxPopOne = [adOne] := by decide
  have hrank : rankedPop defaultScoringConfig cxPopOne = [adOne] := by
    simp [rankedPop, hscor]
  have hband : classifyBand defaultScoringConfig cxPopOne = 0 := by
    show bandSize defaultScoringConfig (scorablePop defaultScoringConfig cxPopOne).length = 0
    rw [hscor]
    decide
  have hbelow : belowPop defaultScoringConfig cxPopOne = [] := by decide
  have hmem : (mkScored defaultScoringConfig cxPopOne .UNKNOWN ("average performance") adOne) ∈
      (classify defaultScoringConfig cxPopOne).1 := by
    simp [classify, bestSel, unknownSel, worstSel, restSel, worstCount,
      hrank, hband, hbelow]
  have h := claim_C2_composite_score defaultScoringConfig cxPopOne _ hmem
  have h2 := h.1 (by decide)
  exact ⟨by decide, h2.1, h2.2.2.2.2.2.2.1.1, h2.2.2.2.2.2.2.1.2⟩

theorem classify_best_first (cfg : ScoringConfig) (pop : List AdInput)
    (s t : ScoredAd) (hs : s ∈ (classify cfg pop).1) (ht : t ∈ (classify cfg pop).1)
    (hsB : s.bucket = .BEST) (htB : t.bucket ≠ .BEST)
    (htS : isScorable cfg t.ad = true) :
    rankLe (scorablePop cfg pop) s.ad t.ad = true := by
  have hPW := rankedPop_sorted cfg pop
  rcases classify_mem_spec cfg pop s hs with
    ⟨hm, _⟩ | ⟨_, hseq⟩ | ⟨_, hseq⟩ | ⟨_, _, hb, _⟩
  case _ =>
    rcases classify_mem_spec cfg pop t ht with
      ⟨_, tseq⟩ | ⟨tm, _⟩ | ⟨tm, _⟩ | ⟨tm, _, _, _⟩
    · rw [tseq] at htB
      simp [mkScored] at htB
    · have htr : t.ad ∈ restSel cfg pop := List.mem_of_mem_take tm
      exact pairwise_take_drop hPW (classifyBand cfg pop) s.ad hm t.ad htr
    · have htr : t.ad ∈ restSel cfg pop := List.mem_of_mem_drop tm
      exact pairwise_take_drop hPW (classifyBand cfg pop) s.ad hm t.ad htr
    · rw [belowPop_not_scorable tm] at htS
      cases htS
  case _ =>
    rw [hseq] at hsB
    simp [mkScored] at hsB
  case _ =>
    rw [hseq] at hsB
    simp [mkScored] at hsB
  case _ =>
    rw [hb] at hsB
    cases hsB

theorem classify_worst_last (cfg : ScoringConfig) (pop : List AdInput)
    (s t : ScoredAd) (hs : s ∈ (classify cfg pop).1) (ht : t ∈ (classify cfg pop).1)
    (hsW : s.bucket = .WORST) (htW : t.bucket ≠ .WORST)
    (htS : isScorable cfg t.ad = true) :
    rankLe (scorablePop cfg pop) t.ad s.ad = true := by
  have hPW := rankedPop_sorted cfg pop
  have hsplitW : worstSel cfg pop =
      (rankedPop cfg pop).drop (classifyBand cfg pop +
        ((restSel cfg pop).length - worstCount cfg pop)) := by
    rw [worstSel, restSel, List.drop_drop]
  have hsplitU : (rankedPop cfg pop).take (classifyBand cfg pop +
      ((restSel cfg pop).length - worstCount cfg pop)) =
      bestSel cfg pop ++ unknownSel cfg pop := by
    rw [List.take_add, bestSel, unknownSel, restSel]
  rcases classify_mem_spec cfg pop s hs with
    ⟨_, hseq⟩ | ⟨_, hseq⟩ | ⟨hm, _⟩ | ⟨_, _, hb, _⟩
  case _ =>
    rw [hseq] at hsW
    simp [mkScored] at hsW
  case _ =>
    rw [hseq] at hsW
    simp [mkScored] at hsW
  case _ =>
    rw [hsplitW] at hm
    rcases classify_mem_spec cfg pop t ht with
      ⟨tm, _⟩ | ⟨tm, _⟩ | ⟨_, tseq⟩ | ⟨tm, _, _, _⟩
    · have htk : t.ad ∈ (rankedPop cfg pop).take (classifyBand cfg pop +
          ((restSel cfg pop).length - worstCount cfg pop)) := by
        rw [hsplitU]
        exact List.mem_append_left _ tm
      exact pairwise_take_drop hPW _ t.ad htk s.ad hm
    · have htk : t.ad ∈ (rankedPop cfg pop).take (classifyBand cfg pop +
          ((restSel cfg pop).length - worstCount cfg pop)) := by
        rw [hsplitU]
        exact List.mem_append_right _ tm
      exact pairwise_take_drop hPW _ t.ad htk s.ad hm
    · rw [tseq] at htW
      simp [mkScored] at htW
    · rw [belowPop_not_scorable tm] at htS
      cases htS
  case _ =>
    rw [hb] at hsW
    cases hsW

/-! ## Claim C3: 20 percent band assignment -/

/-- Claim C3 counterexample: a non-empty scorable population of exactly one
creative receives no BEST assignment — the minimum-1 band applies only once
the scorable population reaches the minimum population for bucketing. -/
theorem claim_C3_counterexample :
    (scorablePop defaultScoringConfig cxPopOne).length = 1 ∧
    (classify defaultScoringConfig cxPopOne).2.best = 0 ∧
    (classify defaultScoringConfig cxPopOne).2.worst = 0 := by
  have hscor : scorablePop defaultScoringConfig cxPopOne = [adOne] := by decide
  have hrank : rankedPop defaultScoringConfig cxPopOne = [adOne] := by
    simp [rankedPop, hscor]
  have hband : classifyBand defaultScoringConfig cxPopOne = 0 := by
    show bandSize defaultScoringConfig (scorablePop defaultScoringConfig cxPopOne).length = 0
    rw [hscor]
    decide
  refine ⟨by rw [hscor]; rfl, ?_, ?_⟩
  · simp [classify, bestSel, hband]
  · simp [classify, worstSel, restSel, worstCount, hband, hrank]

/-- Claim C3 (amended): when the scorable population meets the minimum
population for bucketing, classify ranks it descending by composite score
with ties broken by ascending identifier and assigns the top band to BEST
and the bottom band to WORST; for exactly 10 scorable creatives under the
default configuration (band 0.20) this yields exactly 2 BEST, 2 WORST and
6 UNKNOWN, every BEST creative ranking at least as high as every non-BEST
scorable creative, every WORST at most as low as every non-WORST scorable
creative, and every scorable UNKNOWN creative carrying the explanation
"average performance". -/
theorem claim_C3_band_assignment (pop : List AdInput)
    (h10 : (scorablePop defaultScoringConfig pop).length = 10) :
    (classify defaultScoringConfig pop).2.best = 2 ∧
    (classify defaultScoringConfig pop).2.worst = 2 ∧
    (classify defaultScoringConfig pop).2.unknown = 6 ∧
    (∀ s ∈ (classify defaultScoringConfig pop).1,
      ∀ t ∈ (classify defaultScoringConfig pop).1,
        s.bucket = .BEST → t.bucket ≠ .BEST →
          isScorable defaultScoringConfig t.ad = true →
            rankLe (scorablePop defaultScoringConfig pop) s.ad t.ad = true) ∧
    (∀ s ∈ (classify defaultScoringConfig pop).1,
      ∀ t ∈ (classify defaultScoringConfig pop).1,
        s.bucket = .WORST → t.bucket ≠ .WORST →
          isScorable defaultScoringConfig t.ad = true →
            rankLe (scorablePop defaultScoringConfig pop) t.ad s.ad = true) ∧
    (∀ s ∈ (classify defaultScoringConfig pop).1,
      s.bucket = .UNKNOWN → isScorable defaultScoringConfig s.ad = true →
        s.explanation = "average performance") := by
  have hband : classifyBand defaultScoringConfig pop = 2 := by
    show bandSize defaultScoringConfig (scorablePop defaultScoringConfig pop).length = 2
    rw [h10]
    show (if 10 < defaultScoringConfig.minScorablePopulationForBucketing then 0
      else max 1 (defaultScoringConfig.bestWorstBandPercent * ((10 : Nat) : Rat)).floor.toNat) = 2
    rw [show defaultScoringConfig.bestWorstBandPercent * ((10 : Nat) : Rat) = 2 from by
      norm_num [defaultScoringConfig]]
    decide
  refine ⟨?_, ?_, ?_, ?_, ?_, ?_⟩
  · simp only [classify]
    simp [bestSel, List.length_take, rankedPop_length, h10, hband]
  · simp only [classify]
    simp only [worstSel, restSel, worstCount, List.length_drop, rankedPop_length, h10, hband]
    omega
  · simp only [classify]
    simp only [unknownSel, restSel, worstCount, List.length_take, List.length_drop,
      rankedPop_length, h10, hband]
    omega
  · intro s hs t ht hsB htB htS
    exact classify_best_first defaultScoringConfig pop s t hs ht hsB htB htS
  · intro s hs t ht hsW htW htS
    exact classify_worst_last defaultScoringConfig pop s t hs ht hsW htW htS
  · intro s hs hU hsc
    rcases classify_mem_spec defaultScoringConfig pop s hs with
      ⟨_, hseq⟩ | ⟨_, hseq⟩ | ⟨_, hseq⟩ | ⟨hm, _, _, _⟩
    · rw [hseq] at hU
      simp [mkScored] at hU
    · conv_lhs => rw [hseq]
      rfl
    · rw [hseq] at hU
      simp [mkScored] at hU
    · rw [belowPop_not_scorable hm] at hsc
      cases hsc

/-- Claim C3 witness: the amended theorem evaluated at a concrete
population of 10 scorable creatives. -/
theorem claim_C3_band_assignment_witness :
    (scorablePop defaultScoringConfig pop10).length = 10 ∧
    (classify defaultScoringConfig pop10).2.best = 2 ∧
    (classify defaultScoringConfig pop10).2.worst = 2 ∧
    (classify defaultScoringConfig pop10).2.unknown = 6 := by
  have h10 : (scorablePop defaultScoringConfig pop10).length = 10 := by decide
  have h := claim_C3_band_assignment pop10 h10
  exact ⟨h10, h.1, h.2.1, h.2.2.1⟩

/-! ## Claim C4: minimum scorable population gate -/

/-- Claim C4: a scorable population below the minimum population for
bucketing yields no BEST and no WORST assignment — every creative is
classified UNKNOWN. -/
theorem claim_C4_min_population_gate (cfg : ScoringConfig) (pop : List AdInput)
    (h : (scorablePop cfg pop).length < cfg.minScorablePopulationForBucketing) :
    (classify cfg pop).2.best = 0 ∧ (classify cfg pop).2.worst = 0 ∧
    ∀ s ∈ (classify cfg pop).1, s.bucket = .UNKNOWN := by
  have hband : classifyBand cfg pop = 0 := by
    show bandSize cfg (scorablePop cfg pop).length = 0
    unfold bandSize
    exact if_pos h
  have hbest : bestSel cfg pop = [] := by
    simp [bestSel, hband]
  have hworst : (worstSel cfg pop).length = 0 := by
    simp only [worstSel, restSel, worstCount, hband, List.length_drop]
    omega
  refine ⟨by simp [classify, hbest], ?_, ?_⟩
  · simp only [classify]
    exact hworst
  · intro s hs
    rcases classify_mem_spec cfg pop s hs with
      ⟨hm, _⟩ | ⟨_, hseq⟩ | ⟨hm, _⟩ | ⟨_, _, hb, _⟩
    · rw [hbest] at hm
      cases hm
    · conv_lhs => rw [hseq]
      rfl
    · rw [List.length_eq_zero.mp hworst] at hm
      cases hm
    · exact hb

/-- Claim C4 witness: the theorem evaluated at a concrete population of 4
scorable creatives and at a concrete population of 1 scorable creative,
both under the default configuration with its minimum population of 5. -/
theorem claim_C4_min_population_gate_witness :
    (scorablePop defaultScoringConfig pop4).length = 4 ∧
    (classify defaultScoringConfig pop4).2.best = 0 ∧
    (classify defaultScoringConfig pop4).2.worst = 0 ∧
    ∀ s ∈ (classify defaultScoringConfig cxPopOne).1, s.bucket = .UNKNOWN := by
  have h4 : (scorablePop defaultScoringConfig pop4).length = 4 := by decide
  have ha := claim_C4_min_population_gate defaultScoringConfig pop4 (by decide)
  have hb := claim_C4_min_population_gate defaultScoringConfig cxPopOne (by decide)
  exact ⟨h4, ha.1, ha.2.1, hb.2.2⟩

/-! ## Validator lemmas -/

theorem dedupSeen_subset {y : String} : ∀ (seen l : List String),
    y ∈ dedupSeen seen l → y ∈ l := by
  intro seen l
  induction l generalizing seen with
  | nil => intro h; cases h
  | cons x xs ih =>
    intro h
    simp only [dedupSeen] at h
    split at h
    · exact List.mem_cons_of_mem _ (ih _ h)
    · rcases List.mem_cons.mp h with rfl | h2
      · exact List.mem_cons_self _ _
      · exact List.mem_cons_of_mem _ (ih _ h2)

theorem dedupSeen_not_mem_seen {y : String} : ∀ (seen l : List String),
    y ∈ dedupSeen seen l → y ∉ seen := by
  intro seen l
  induction l generalizing seen with
  | nil => intro h; cases h
  | cons x xs ih =>
    intro h
    simp only [dedupSeen] at h
    split at h
    · exact ih _ h
    · rename_i hxs
      rcases List.mem_cons.mp h with rfl | h2
      · exact hxs
      · intro hy
        exact ih _ h2 (List.mem_cons_of_mem _ hy)

theorem dedupSeen_nodup : ∀ (seen l : List String), (dedupSeen seen l).Nodup := by
  intro seen l
  induction l generalizing seen with
  | nil => simp [dedupSeen]
  | cons x xs ih =>
    simp only [dedupSeen]
    split
    · exact ih _
    · simp only [List.nodup_cons]
      exact ⟨fun hmem => dedupSeen_not_mem_seen _ _ hmem (List.mem_cons_self _ _), ih _⟩

theorem nodup_dedupKeepFirst (l : List String) : (dedupKeepFirst l).Nodup :=
  dedupSeen_nodup [] l

theorem mem_dedupKeepFirst {y : String} {l : List String}
    (h : y ∈ dedupKeepFirst l) : y ∈ l :=
  dedupSeen_subset [] l h

theorem wordBoundaryTruncate_length_le {maxLen : Nat} {cs : List Char}
    (h : maxLen < cs.length) : (wordBoundaryTruncate maxLen cs).length ≤ maxLen := by
  simp only [wordBoundaryTruncate, if_neg (Nat.not_le.mpr h)]
  split
  · rw [List.length_reverse]
    calc (((cs.take maxLen).reverse.dropWhile fun c => decide (c ≠ ' ')).dropWhile
          fun c => decide (c = ' ')).length
        ≤ ((cs.take maxLen).reverse.dropWhile fun c => decide (c ≠ ' ')).length :=
          (List.dropWhile_sublist _).length_le
      _ ≤ (cs.take maxLen).reverse.length := (List.dropWhile_sublist _).length_le
      _ = (cs.take maxLen).length := List.length_reverse _
      _ ≤ maxLen := by simp [List.length_take]
  · simp [List.length_take]

theorem processItem_kept_length {label : String} {maxLen : Nat} {s out : String}
    (h : (processItem label maxLen s).kept = some out) : out.length ≤ maxLen := by
  by_cases hle : (trimString s).length ≤ maxLen
  · have hk : (processItem label maxLen s).kept = some (trimString s) := by
      simp only [processItem]
      rw [if_pos hle]
    rw [hk] at h
    rw [← Option.some.inj h]
    exact hle
  · by_cases h3 : 3 ≤ (String.mk (wordBoundaryTruncate maxLen (trimString s).data)).length
    · have hk : (processItem label maxLen s).kept =
          some (String.mk (wordBoundaryTruncate maxLen (trimString s).data)) := by
        simp only [processItem]
        rw [if_neg hle, if_pos h3]
      rw [hk] at h
      rw [← Option.some.inj h, String.length_mk]
      exact wordBoundaryTruncate_length_le (by
        have he : (trimString s).length = (trimString s).data.length := rfl
        omega)
    · have hk : (processItem label maxLen s).kept = none := by
        simp only [processItem]
        rw [if_neg hle, if_neg h3]
      rw [hk] at h
      cases h

theorem validateSide_items_spec (label : String) (maxLen minCount maxCount : Nat)
    (input : List String) :
    (validateSide label maxLen minCount maxCount input).items.Nodup ∧
    (∀ x ∈ (validateSide label maxLen minCount maxCount input).items, x.length ≤ maxLen) ∧
    ((validateSide label maxLen minCount maxCount input).countOk = true ↔
      minCount ≤ (validateSide label maxLen minCount maxCount input).items.length) := by
  refine ⟨nodup_dedupKeepFirst _, ?_, ?_⟩
  · intro x hx
    simp only [validateSide] at hx
    obtain ⟨o, ho, hk⟩ := List.mem_filterMap.mp (mem_dedupKeepFirst hx)
    obtain ⟨s, hsin, rfl⟩ := List.mem_map.mp ho
    exact processItem_kept_length hk
  · simp [validateSide]

theorem validateSide_count_errors (label : String) (maxLen minCount maxCount : Nat)
    (input : List String)
    (h : (validateSide label maxLen minCount maxCount input).items.length < minCount ∨
      maxCount < (validateSide label maxLen minCount maxCount input).items.length) :
    (validateSide label maxLen minCount maxCount input).errors ≠ [] := by
  intro heq
  simp only [validateSide] at h heq
  rw [List.append_eq_nil] at heq
  obtain ⟨-, hcount⟩ := heq
  rw [List.append_eq_nil] at hcount
  obtain ⟨ha, hb⟩ := hcount
  rcases h with h | h
  · rw [if_pos h] at ha
    cases ha
  · rw [if_pos h] at hb
    cases hb

/-! ## Claim C5: RSA constraint validation -/

/-- Claim C5: the validator enforces the count ranges with itemized errors,
keeps every output item within its length limit, removes duplicates
case-sensitively after whitespace-trim normalization, and returns
passed = true exactly when both remaining counts are at or above their
minimums; on the 40-character single-word headline example the headline is
hard-cut to 30 characters (a word-boundary cut is impossible), kept, and
validation fails with an itemized count error. -/
theorem claim_C5_validator :
    ((validate exampleVariant).passed = false ∧
      (validate exampleVariant).normalized.headlines = [strA30] ∧
      (validate exampleVariant).errors ≠ [] ∧
      (validate exampleVariant).normalized.headlines.length = 1) ∧
    ∀ v : Variant,
      ((validate v).passed = true ↔
        (3 ≤ (validate v).normalized.headlines.length ∧
          2 ≤ (validate v).normalized.descriptions.length)) ∧
      (validate v).normalized.headlines.Nodup ∧
      (validate v).normalized.descriptions.Nodup ∧
      (∀ x ∈ (validate v).normalized.headlines, x.length ≤ 30) ∧
      (∀ x ∈ (validate v).normalized.descriptions, x.length ≤ 90) ∧
      (((validate v).normalized.headlines.length < 3 ∨
          15 < (validate v).normalized.headlines.length) → (validate v).errors ≠ []) ∧
      (((validate v).normalized.descriptions.length < 2 ∨
          4 < (validate v).normalized.descriptions.length) → (validate v).errors ≠ []) := by
  constructor
  · exact ⟨by decide, by decide, by decide, by decide⟩
  · intro v
    obtain ⟨hnodH, hlenH, hokH⟩ := validateSide_items_spec ("headline") 30 3 15 v.headlines
    obtain ⟨hnodD, hlenD, hokD⟩ := validateSide_items_spec ("description") 90 2 4 v.descriptions
    refine ⟨?_, hnodH, hnodD, hlenH, hlenD, ?_, ?_⟩
    · rw [show (validate v).passed =
        ((validateSide ("headline") 30 3 15 v.headlines).countOk &&
          (validateSide ("description") 90 2 4 v.descriptions).countOk) from rfl]
      rw [Bool.and_eq_true]
      exact and_congr hokH hokD
    · intro hrange heq
      exact validateSide_count_errors ("headline") 30 3 15 v.headlines hrange
        (List.append_eq_nil.mp heq).1
    · intro hrange heq
      exact validateSide_count_errors ("description") 90 2 4 v.descriptions hrange
        (List.append_eq_nil.mp heq).2

/-- Claim C5 witness: a fully constraint-satisfying variant passes, with
the passed flag obtained from the count criterion of the claim theorem. -/
theorem claim_C5_validator_witness :
    (validate goodVariant).passed = true ∧
    (validate goodVariant).normalized.headlines.Nodup := by
  have h := (claim_C5_validator).2 goodVariant
  exact ⟨h.1.mpr (by decide), h.2.1⟩

/-! ## Claim C6: one Suggestion per raw variant with provenance -/

/-- Claim C6: every successful generate call with num_variants n persists
exactly n Suggestions, one per raw variant in order — variants failing
validation included, kept with validation_passed false — and every
Suggestion carries the exemplar ids and parallel similarity scores copied
from retrieval. -/
theorem claim_C6_suggestions_per_variant (exemplars : List Exemplar) (numVariants : Nat)
    (response : Option (List Variant)) (db : List Suggestion) (sugs : List Suggestion)
    (h : generate exemplars numVariants response = .ok sugs) :
    sugs.length = numVariants ∧
    (∀ s ∈ sugs, s.exemplarIds = exemplars.map (fun e => e.id) ∧
      s.similarityScores = exemplars.map (fun e => e.similarity)) ∧
    (∃ vs, response = some vs ∧ vs.length = numVariants ∧
      sugs = vs.map (mkSuggestion exemplars) ∧
      ∀ i : Nat, sugs[i]? = (vs[i]?).map (mkSuggestion exemplars)) ∧
    (∀ v : Variant, (mkSuggestion exemplars v).validationPassed = (validate v).passed ∧
      (mkSuggestion exemplars v).validationErrors = (validate v).errors) ∧
    generateAndPersist db exemplars numVariants response = (db ++ sugs, none) ∧
    (db ++ sugs).length = db.length + numVariants := by
  have hgen := h
  simp only [generate] at h
  split at h
  · cases h
  · split at h
    · cases h
    · rename_i vs hparse
      have hsugs : sugs = vs.map (mkSuggestion exemplars) := (Except.ok.inj h).symm
      have hvs : response = some vs ∧ vs.length = numVariants := by
        unfold parseVariants at hparse
        split at hparse
        · cases hparse
        · rename_i rs
          split at hparse
          · rename_i hlen
            exact ⟨by rw [Option.some.inj hparse], by rw [← Option.some.inj hparse]; exact hlen⟩
          · cases hparse
      refine ⟨?_, ?_, ⟨vs, hvs.1, hvs.2, hsugs, ?_⟩, fun v => ⟨rfl, rfl⟩, ?_, ?_⟩
      · rw [hsugs, List.length_map]
        exact hvs.2
      · intro s hs
        rw [hsugs] at hs
        obtain ⟨v, hv, rfl⟩ := List.mem_map.mp hs
        exact ⟨rfl, rfl⟩
      · intro i
        rw [hsugs, List.getElem?_map]
      · simp [generateAndPersist, hgen]
      · rw [List.length_append, hsugs, List.length_map, hvs.2]

/-- Claim C6 witness: a target with exactly one exemplar and three raw
variants yields exactly three Suggestions, each referencing the single
exemplar id and its similarity score. -/
theorem claim_C6_suggestions_per_variant_witness :
    (([goodVariant, exampleVariant, goodVariant].map
        (mkSuggestion [exemplarSeven])).length = 3) ∧
    ∀ s ∈ [goodVariant, exampleVariant, goodVariant].map (mkSuggestion [exemplarSeven]),
      s.exemplarIds = [7] ∧ s.similarityScores = [exemplarSeven.similarity] := by
  have h := claim_C6_suggestions_per_variant [exemplarSeven] 3
    (some [goodVariant, exampleVariant, goodVariant]) [] _ rfl
  refine ⟨h.1, fun s hs => ?_⟩
  have h2 := h.2.1 s hs
  exact ⟨h2.1, h2.2⟩

/-! ## Claim C7: generation error handling -/

/-- Claim C7: generate fails with NoExemplarsAvailable exactly when the
exemplar sequence is empty and with GenerationParseError when the service
response cannot be parsed into the expected count and shape; in both cases
no Suggestion is persisted and the store is unchanged; the frontend
surfaces the no-exemplars failure as the run-scoring-first toast. -/
theorem claim_C7_generation_errors (db : List Suggestion) (exemplars : List Exemplar)
    (numVariants : Nat) (response : Option (List Variant)) :
    (exemplars = [] →
      generate exemplars numVariants response = .error .noExemplarsAvailable ∧
      generateAndPersist db exemplars numVariants response =
        (db, some .noExemplarsAvailable)) ∧
    (exemplars ≠ [] → parseVariants numVariants response = none →
      generate exemplars numVariants response = .error .generationParseError ∧
      generateAndPersist db exemplars numVariants response =
        (db, some .generationParseError)) ∧
    (∀ msg : String, stringIncludes msg ("No high-performing ads") = true →
      generationErrorDescription msg = runScoringFirstMessage) ∧
    stringIncludes runScoringFirstMessage ("run scoring first") = true := by
  refine ⟨?_, ?_, ?_, ?_⟩
  · intro he
    have hg : generate exemplars numVariants response = .error .noExemplarsAvailable := by
      simp [generate, he]
    exact ⟨hg, by simp [generateAndPersist, hg]⟩
  · intro hne hparse
    have hemp : exemplars.isEmpty = false := by
      cases exemplars with
      | nil => exact absurd rfl hne
      | cons x xs => rfl
    have hg : generate exemplars numVariants response = .error .generationParseError := by
      simp [generate, hemp, hparse]
    exact ⟨hg, by simp [generateAndPersist, hg]⟩
  · intro msg hmsg
    simp [generationErrorDescription, hmsg]
  · decide

/-- Claim C7 witness: the theorem evaluated at an empty exemplar pool, at an
unparseable response with a non-empty pool, and at a concrete backend
no-exemplars message. -/
theorem claim_C7_generation_errors_witness :
    generate [] 3 (some []) = .error .noExemplarsAvailable ∧
    generateAndPersist [] [] 3 (some []) = ([], some .noExemplarsAvailable) ∧
    generate [exemplarSeven] 2 none = .error .generationParseError ∧
    generateAndPersist [] [exemplarSeven] 2 none = ([], some .generationParseError) ∧
    generationErrorDescription ("No high-performing ads found") = runScoringFirstMessage := by
  have h1 := (claim_C7_generation_errors [] [] 3 (some [])).1 rfl
  have h2 := (claim_C7_generation_errors [] [exemplarSeven] 2 none).2.1 (by simp) rfl
  have h3 := (claim_C7_generation_errors [] [] 0 none).2.2.1
    ("No high-performing ads found") (by decide)
  exact ⟨h1.1, h1.2, h2.1, h2.2, h3⟩

/-! ## Claim C8: query degradation with field removal -/

/-- Claim C8: every successful run of execute_with_fallback reaches its
final field list from the initial one by at most `retries` steps, each step
removing exactly the fields named by the error of the previous attempt (so
no field not named in an error is ever removed, and no success is reported
past the ceiling); an exhausted run fails after exactly `retries`
field-removal steps with an error carrying the last-attempted field list
and the final error; the default ceiling is 3. -/
theorem claim_C8_query_degradation {α : Type} (api : List String → ApiResponse α) :
    ∀ (retries : Nat) (fields : List String),
    (∀ (d : α) (finalFields : List String),
      executeWithFallback api retries fields = .ok (d, finalFields) →
        api finalFields = .ok d ∧
        ∃ k, k ≤ retries ∧ DegradeChain api k fields finalFields) ∧
    (∀ e : QueryDegradationExhausted,
      executeWithFallback api retries fields = .error e →
        DegradeChain api retries fields e.attemptedFields ∧
        api e.attemptedFields = .fieldError e.finalBadFields) ∧
    defaultMaxFieldRemovalRetries = 3 := by
  intro retries
  induction retries with
  | zero =>
    intro fields
    refine ⟨?_, ?_, rfl⟩
    · intro d ff h
      cases happ : api fields with
      | ok d2 =>
        simp only [executeWithFallback, happ] at h
        simp only [Except.ok.injEq, Prod.mk.injEq] at h
        obtain ⟨h1, h2⟩ := h
        subst h1
        subst h2
        exact ⟨happ, 0, Nat.le_refl 0, DegradeChain.refl fields⟩
      | fieldError bad =>
        simp only [executeWithFallback, happ] at h
        exact absurd h (by simp)
    · intro e h
      cases happ : api fields with
      | ok d2 =>
        simp only [executeWithFallback, happ] at h
        exact absurd h (by simp)
      | fieldError bad =>
        simp only [executeWithFallback, happ] at h
        have he := Except.error.inj h
        subst he
        exact ⟨DegradeChain.refl fields, happ⟩
  | succ r ih =>
    intro fields
    refine ⟨?_, ?_, rfl⟩
    · intro d ff h
      cases happ : api fields with
      | ok d2 =>
        simp only [executeWithFallback, happ] at h
        simp only [Except.ok.injEq, Prod.mk.injEq] at h
        obtain ⟨h1, h2⟩ := h
        subst h1
        subst h2
        exact ⟨happ, 0, Nat.zero_le _, DegradeChain.refl fields⟩
      | fieldError bad =>
        simp only [executeWithFallback, happ] at h
        obtain ⟨hapi, k, hk, hchain⟩ := (ih (removeFields fields bad)).1 d ff h
        exact ⟨hapi, k + 1, by omega, DegradeChain.step happ hchain⟩
    · intro e h
      cases happ : api fields with
      | ok d2 =>
        simp only [executeWithFallback, happ] at h
        exact absurd h (by simp)
      | fieldError bad =>
        simp only [executeWithFallback, happ] at h
        obtain ⟨hchain, hapi⟩ := (ih (removeFields fields bad)).2.1 e h
        exact ⟨DegradeChain.step happ hchain, hapi⟩

/-- Claim C8 witness: a concrete run that succeeds after one field removal,
and a concrete run that exhausts the default ceiling of 3. -/
theorem claim_C8_query_degradation_witness :
    executeWithFallback apiDropCtr 3 ["id", "ctr"] = .ok (1, ["id"]) ∧
    apiDropCtr ["id"] = .ok 1 ∧
    (∃ k, k ≤ 3 ∧ DegradeChain apiDropCtr k ["id", "ctr"] ["id"]) ∧
    DegradeChain apiAlwaysFails 3 ["a"] ["a"] ∧
    apiAlwaysFails ["a"] = .fieldError ["unsupported"] := by
  have hrun : executeWithFallback apiDropCtr 3 ["id", "ctr"] = .ok (1, ["id"]) := by rfl
  have herr : executeWithFallback apiAlwaysFails 3 ["a"] =
      .error { attemptedFields := ["a"], finalBadFields := ["unsupported"] } := by rfl
  obtain ⟨hapi, hex⟩ :=
    (claim_C8_query_degradation apiDropCtr 3 ["id", "ctr"]).1 1 ["id"] hrun
  obtain ⟨hchain, hfin⟩ :=
    (claim_C8_query_degradation apiAlwaysFails 3 ["a"]).2.1
      { attemptedFields := ["a"], finalBadFields := ["unsupported"] } herr
  exact ⟨hrun, hapi, hex, hchain, hfin⟩

/-! ## Retrieval lemmas -/

theorem getEmbedding_fst {embed : String → List Rat} {cache : List EmbeddingCacheEntry}
    (hc : CacheConsistent embed cache) (cid : Nat) (text : String) :
    (getEmbedding embed cache cid text).1 = embed text := by
  unfold getEmbedding
  cases hl : cacheLookup cache cid text with
  | none => rfl
  | some v =>
    show v = embed text
    unfold cacheLookup at hl
    cases hf : cache.find? (fun e => decide (e.creativeId = cid ∧ e.textKey = text)) with
    | none => rw [hf] at hl; cases hl
    | some e =>
      rw [hf] at hl
      have he := Option.some.inj hl
      have hmem := List.mem_of_find?_eq_some hf
      have hpred := List.find?_some hf
      simp only [decide_eq_true_eq] at hpred
      rw [← he, hc e hmem, hpred.2]

theorem getEmbedding_snd_consistent {embed : String → List Rat}
    {cache : List EmbeddingCacheEntry} (hc : CacheConsistent embed cache)
    (cid : Nat) (text : String) :
    CacheConsistent embed (getEmbedding embed cache cid text).2 := by
  unfold getEmbedding
  cases hl : cacheLookup cache cid text with
  | some v => exact hc
  | none =>
    intro e he
    rcases List.mem_cons.mp he with rfl | he2
    · rfl
    · exact hc e he2

theorem findSimilar_foldl (embed : String → List Rat) (tv : List Rat) :
    ∀ (pool : List Creative) (acc : List SimilarityHit) (cache : List EmbeddingCacheEntry),
      CacheConsistent embed cache →
      (pool.foldl (findSimilarStep embed tv) (acc, cache)).1 =
        acc ++ pool.map (fun p =>
          { creativeId := p.id, score := cosineSimilarity tv (embed (creativeText p)) }) ∧
      CacheConsistent embed (pool.foldl (findSimilarStep embed tv) (acc, cache)).2 := by
  intro pool
  induction pool with
  | nil =>
    intro acc cache hc
    exact ⟨by simp, hc⟩
  | cons p ps ih =>
    intro acc cache hc
    simp only [List.foldl_cons]
    have hfst := getEmbedding_fst hc p.id (creativeText p)
    have hsnd := getEmbedding_snd_consistent hc p.id (creativeText p)
    have hstep : findSimilarStep embed tv (acc, cache) p =
        (acc ++ [SimilarityHit.mk p.id (cosineSimilarity tv (embed (creativeText p)))],
          (getEmbedding embed cache p.id (creativeText p)).2) := by
      simp only [findSimilarStep]
      rw [hfst]
    rw [hstep]
    obtain ⟨h1, h2⟩ := ih
      (acc ++ [SimilarityHit.mk p.id (cosineSimilarity tv (embed (creativeText p)))])
      (getEmbedding embed cache p.id (creativeText p)).2 hsnd
    constructor
    · rw [h1, List.map_cons]
      simp
    · exact h2

theorem findSimilar_spec (embed : String → List Rat) (cache : List EmbeddingCacheEntry)
    (target : Creative) (pool : List Creative) (k : Nat)
    (hc : CacheConsistent embed cache) :
    (findSimilar embed cache target pool k).1 =
      ((poolSimilarityScores embed target pool).mergeSort simOrder).take k ∧
    CacheConsistent embed (findSimilar embed cache target pool k).2 := by
  have htv := getEmbedding_fst hc target.id (creativeText target)
  have htc := getEmbedding_snd_consistent hc target.id (creativeText target)
  obtain ⟨h1, h2⟩ := findSimilar_foldl embed
    (getEmbedding embed cache target.id (creativeText target)).1 pool []
    (getEmbedding embed cache target.id (creativeText target)).2 htc
  constructor
  · show ((pool.foldl (findSimilarStep embed
      (getEmbedding embed cache target.id (creativeText target)).1)
        ([], (getEmbedding embed cache target.id (creativeText target)).2)).1.mergeSort
          simOrder).take k = _
    rw [h1]
    simp only [htv]
    simp [poolSimilarityScores]
  · exact h2

theorem simOrder_trans : ∀ a b c : SimilarityHit,
    simOrder a b = true → simOrder b c = true → simOrder a c = true := by
  intro a b c hab hbc
  simp only [simOrder, scoreDescIdAsc, decide_eq_true_eq] at *
  rcases hab with h1 | ⟨e1, i1⟩ <;> rcases hbc with h2 | ⟨e2, i2⟩
  · exact Or.inl (lt_trans h2 h1)
  · exact Or.inl (by rw [← e2]; exact h1)
  · exact Or.inl (by rw [e1]; exact h2)
  · exact Or.inr ⟨e1.trans e2, le_trans i1 i2⟩

theorem simOrder_total : ∀ a b : SimilarityHit,
    (simOrder a b || simOrder b a) = true := by
  intro a b
  simp only [simOrder, scoreDescIdAsc, Bool.or_eq_true, decide_eq_true_eq]
  rcases lt_trichotomy a.score b.score with h | h | h
  · exact Or.inr (Or.inl h)
  · rcases Nat.le_total a.creativeId b.creativeId with hi | hi
    · exact Or.inl (Or.inr ⟨h, hi⟩)
    · exact Or.inr (Or.inr ⟨h.symm, hi⟩)
  · exact Or.inl (Or.inl h)

/-! ## Claim C9: retrieval determinism and top-k ordering -/

/-- Claim C9: against a consistent embedding cache, find_similar is
deterministic — a second call served from the cache written by the first
returns the identical ranking and scores — and each call returns the top-k
pool creatives in descending cosine-similarity order with ties broken by
creative identifier ascending. -/
theorem claim_C9_find_similar_deterministic (embed : String → List Rat)
    (cache : List EmbeddingCacheEntry) (target : Creative) (pool : List Creative)
    (k : Nat) (hc : CacheConsistent embed cache) :
    (findSimilar embed (findSimilar embed cache target pool k).2 target pool k).1 =
      (findSimilar embed cache target pool k).1 ∧
    CacheConsistent embed (findSimilar embed cache target pool k).2 ∧
    (findSimilar embed cache target pool k).1 =
      ((poolSimilarityScores embed target pool).mergeSort simOrder).take k ∧
    (findSimilar embed cache target pool k).1.Pairwise
      (fun a b => simOrder a b = true) ∧
    (findSimilar embed cache target pool k).1.length = min k pool.length ∧
    (∀ a ∈ (findSimilar embed cache target pool k).1,
      ∀ b ∈ ((poolSimilarityScores embed target pool).mergeSort simOrder).drop k,
        simOrder a b = true) := by
  obtain ⟨h1, h2⟩ := findSimilar_spec embed cache target pool k hc
  obtain ⟨h1b, h2b⟩ := findSimilar_spec embed
    (findSimilar embed cache target pool k).2 target pool k h2
  have hsorted : ((poolSimilarityScores embed target pool).mergeSort simOrder).Pairwise
      (fun a b => simOrder a b = true) :=
    List.sorted_mergeSort simOrder_trans simOrder_total _
  refine ⟨by rw [h1b, h1], h2, h1, ?_, ?_, ?_⟩
  · rw [h1]
    exact List.Pairwise.sublist (List.take_sublist _ _) hsorted
  · rw [h1, List.length_take, List.length_mergeSort]
    simp [poolSimilarityScores]
  · intro a ha b hb
    rw [h1] at ha
    exact pairwise_take_drop hsorted k a ha b hb

/-- Claim C9 witness: a concrete two-call run over a one-creative pool with
an empty initial cache — the second call returns the first call's ranking. -/
theorem claim_C9_find_similar_deterministic_witness :
    (findSimilar embedByLength
        (findSimilar embedByLength [] creativeTargetW [creativePoolW] 1).2
        creativeTargetW [creativePoolW] 1).1 =
      (findSimilar embedByLength [] creativeTargetW [creativePoolW] 1).1 ∧
    (findSimilar embedByLength [] creativeTargetW [creativePoolW] 1).1.length = 1 := by
  have hc : CacheConsistent embedByLength [] := by
    intro e he
    cases he
  have h := claim_C9_find_similar_deterministic embedByLength []
    creativeTargetW [creativePoolW] 1 hc
  refine ⟨h.1, ?_⟩
  have := h.2.2.2.2.1
  simpa using this

/-! ## Claim C10: suggestions fetch on the ad detail page -/

/-- Claim C10: the suggestions queryFn returns the parsed JSON list on an ok
response, the empty list when the status is exactly 404, and an error for
every other non-ok status — and an empty list renders as the empty
suggestions state rather than an error state. -/
theorem claim_C10_suggestions_fetch (res : HttpResponse) :
    (res.ok = true → fetchSuggestionsQueryFn res = .ok res.json) ∧
    (res.ok = false → res.status = 404 →
      fetchSuggestionsQueryFn res = .ok [] ∧
      renderSuggestionsPanel false (some []) = .emptyView) ∧
    (res.ok = false → res.status ≠ 404 →
      fetchSuggestionsQueryFn res = .error ("Failed to fetch suggestions")) := by
  refine ⟨?_, ?_, ?_⟩
  · intro hok
    simp [fetchSuggestionsQueryFn, hok]
  · intro hok h404
    exact ⟨by simp [fetchSuggestionsQueryFn, hok, h404], rfl⟩
  · intro hok h404
    simp [fetchSuggestionsQueryFn, hok, h404]

/-- Claim C10 witness: concrete 404, ok and 500 responses. -/
theorem claim_C10_suggestions_fetch_witness :
    fetchSuggestionsQueryFn { ok := false, status := 404, json := [] } = .ok [] ∧
    fetchSuggestionsQueryFn { ok := true, status := 200, json := [] } = .ok [] ∧
    fetchSuggestionsQueryFn { ok := false, status := 500, json := [] } =
      .error ("Failed to fetch suggestions") ∧
    renderSuggestionsPanel false (some []) = .emptyView := by
  have h1 := (claim_C10_suggestions_fetch { ok := false, status := 404, json := [] }).2.1 rfl rfl
  have h2 := (claim_C10_suggestions_fetch { ok := true, status := 200, json := [] }).1 rfl
  have h3 := (claim_C10_suggestions_fetch { ok := false, status := 500, json := [] }).2.2 rfl
    (by decide)
  exact ⟨h1.1, h2, h3, h1.2⟩
